import Mathlib

/-!
Verification development for the Flask e-commerce application
(`app/__init__.py`): a shallow embedding of its relational state and
route handlers, with theorems about registration, login, email
confirmation, the cart, search, checkout and order placement.

The first half of the file embeds the data model and the handlers; the
second half states and proves the properties.
-/

set_option linter.all false

namespace Shop

/-! Section: Data model -/

/-- A row of the `Item` table: catalog product with a name, a price and
an external pricing reference (`price_id`). -/
structure Item where
  id : Nat
  name : String
  price : Int
  price_id : String
deriving DecidableEq, Repr

/-- A row of the `User` table: identity, stored credential hash,
confirmation flag and contact info. -/
structure User where
  id : Nat
  name : String
  email : String
  password : String
  phone : String
  email_confirmed : Bool
deriving DecidableEq, Repr

/-- A `Cart` row: quantity of an item a user intends to purchase. -/
structure CartEntry where
  uid : Nat
  itemid : Nat
  quantity : Nat
deriving DecidableEq, Repr

/-- A row of the `Order` table: owning user, creation timestamp and
status (`place_order` creates it with status `"Pending"`). -/
structure Order where
  id : Nat
  uid : Nat
  date : Nat
  status : String
deriving DecidableEq, Repr

/-- A row of the `Ordered_item` table: line item of a placed order. -/
structure OrderedItem where
  oid : Nat
  itemid : Nat
  quantity : Nat
deriving DecidableEq, Repr

/-- The relational store.  `next_order_id` models the autoincrement
primary key of `Order` (the code commits the new order early precisely
"to get the order ID"). -/
structure DB where
  users : List User
  items : List Item
  cart : List CartEntry
  orders : List Order
  ordered_items : List OrderedItem
  next_order_id : Nat
deriving DecidableEq, Repr

/-- The value of `current_user.cart`: the cart rows belonging to one
user, in insertion order. -/
def userCart (db : DB) (uid : Nat) : List CartEntry :=
  db.cart.filter (fun c => c.uid == uid)

/-! Section: Order placement (`/place_order`) -/

/-- Outcome of a `place_order` request, as surfaced to the user via
flash messages and redirects. -/
inductive PlaceOrderResult
  | emptyCart
  | success
  | failure
deriving DecidableEq, Repr

/-- The second `db.session.commit()` of `place_order`: for every cart
row of the user, an `Ordered_item` referencing order `oid` is inserted
and the cart row is deleted, all committed together. -/
def commitTransfer (db : DB) (uid oid : Nat) (cart : List CartEntry) : DB :=
  { db with
    ordered_items :=
      db.ordered_items ++
        cart.map (fun c => { oid := oid, itemid := c.itemid, quantity := c.quantity }),
    cart := db.cart.filter (fun c => !(c.uid == uid)) }

/-- The `/place_order` handler for an authenticated user `uid` at time
`now`.  The code guards on an empty cart, then inserts the new `Order`
and commits it on its own ("Commit to get the order ID"), then moves the
cart rows to `Ordered_item` rows and commits again.  `failAt = some k`
injects an exception while transferring the `k`-th cart entry (when `k`
is in range); the `except` branch then calls `db.session.rollback()`,
which discards only the uncommitted inserts/deletes and leaves the
already committed order row in place. -/
def place_order (db : DB) (uid : Nat) (now : Nat) (failAt : Option Nat) :
    PlaceOrderResult × DB :=
  let cart := userCart db uid
  if cart.isEmpty then
    (.emptyCart, db)
  else
    let oid := db.next_order_id
    let db1 : DB :=
      { db with
        orders := db.orders ++ [{ id := oid, uid := uid, date := now, status := "Pending" }],
        next_order_id := oid + 1 }
    match failAt with
    | some k =>
      if k < cart.length then
        (.failure, db1)
      else
        (.success, commitTransfer db1 uid oid cart)
    | none => (.success, commitTransfer db1 uid oid cart)

/-- The claim of C1, stated as the spec states it: a failure during
transfer restores the pre-request state entirely, order row included. -/
def rollsBackEverything (db : DB) (uid now k : Nat) : Prop :=
  k < (userCart db uid).length →
    (place_order db uid now (some k)).2 = db

/-! Section: Search (`/search`) -/

/-- SQL `LIKE` pattern matching as used by
`Item.query.filter(Item.name.like(search))`: `%` matches any sequence
of characters, `_` matches exactly one character, and any other pattern
character matches a single character up to ASCII case folding (the
SQLite default for `LIKE`, which coincides with `Char.toLower`'s
ASCII-only folding).  First argument is the pattern, second the
candidate string. -/
def likeMatch : List Char → List Char → Bool
  | [], s => s.isEmpty
  | c :: p, s =>
    if c = '%' then
      s.tails.any (fun t => likeMatch p t)
    else
      match s with
      | [] => false
      | d :: s' =>
        if c = '_' then likeMatch p s'
        else (c.toLower == d.toLower) && likeMatch p s'

/-- The `/search` handler: it wraps the raw query string in `%…%` and
filters the `Item` table with SQL `LIKE` on the name. -/
def search (items : List Item) (query : String) : List Item :=
  items.filter (fun it => likeMatch ('%' :: (query.data ++ ['%'])) it.name.data)

/-- Case-insensitive substring containment of `query` in `name`: some
suffix of the (case-folded) name starts with the (case-folded) query. -/
def containsCI (query name : String) : Bool :=
  ((name.data.map Char.toLower).tails).any
    (fun t => (query.data.map Char.toLower).isPrefixOf t)

/-- The claim of C4, stated as the spec states it: for every non-empty
query, `search` returns exactly the items whose name contains the query
as a case-insensitive substring. -/
def searchIsSubstringSearch (items : List Item) (query : String) : Prop :=
  query ≠ "" → search items query = items.filter (fun it => containsCI query it.name)

/-! Section: Identity and session -/

/-- Parameters that `register` passes to `generate_password_hash`. -/
structure HashParams where
  method : String
  salt_length : Nat
deriving DecidableEq, Repr

/-- Outcome of a `/register` form submission. -/
inductive RegisterResult
  | conflict (email : String)
  | success
deriving DecidableEq, Repr

/-- The `/register` handler for a logged-out visitor submitting a valid
form.  `hashPw` stands for werkzeug's `generate_password_hash` (an
external collaborator); the handler calls it with method
`"pbkdf2:sha256"` and salt length 8.  `newId` models the autoincrement
primary key of the new `User` row; the `email_confirmed := false`
default of the fresh row is modelled from the spec (the column default
lives in `app/db_models.py`, which is not among the sources, and the
spec says registration stores an unconfirmed account). -/
def register (hashPw : HashParams → String → String) (db : DB)
    (name email password phone : String) (newId : Nat) : RegisterResult × DB :=
  match db.users.find? (fun u => u.email == email) with
  | some u => (.conflict u.email, db)
  | none =>
    (.success,
     { db with
       users := db.users ++
         [{ id := newId, name := name, email := email,
            password := hashPw { method := "pbkdf2:sha256", salt_length := 8 } password,
            phone := phone, email_confirmed := false }] })

/-- The flask-login session: the id of the authenticated user, if any. -/
structure Session where
  current : Option Nat
deriving DecidableEq, Repr

/-- Outcome of a `/login` form submission. -/
inductive LoginResult
  | alreadyLoggedIn
  | unknownEmail (email : String)
  | wrongPassword
  | success (uid : Nat)
deriving DecidableEq, Repr

/-- The `/login` handler on a valid form submission.  `checkPw` stands
for werkzeug's `check_password_hash` (external collaborator), applied
to the stored hash and the submitted password; on success the handler
calls `login_user(user)`. -/
def login (checkPw : String → String → Bool) (db : DB) (sess : Session)
    (email password : String) : LoginResult × Session :=
  if sess.current.isSome then
    (.alreadyLoggedIn, sess)
  else
    match db.users.find? (fun u => u.email == email) with
    | none => (.unknownEmail email, sess)
    | some u =>
      if checkPw u.password password then
        (.success u.id, { current := some u.id })
      else
        (.wrongPassword, sess)

/-- A confirmation token as handled by `URLSafeTimedSerializer`: the
email it binds, its age in seconds at redemption time, and whether its
signature verifies. -/
structure Token where
  email : String
  age : Nat
  validSig : Bool
deriving DecidableEq, Repr

/-- The call `confirm_serializer.loads(token, max_age=3600)` with the
email-confirmation salt: raises (modelled as `none`) when the signature
is bad or the token's age exceeds `max_age` seconds. -/
def loadsToken (t : Token) (max_age : Nat) : Option String :=
  if t.validSig ∧ t.age ≤ max_age then some t.email else none

/-- An unhandled Python exception escaping a handler. -/
inductive PyError
  | attributeError (msg : String)
  | typeError (msg : String)
deriving DecidableEq, Repr

/-- Outcome of a `/confirm/<token>` request, as flashed to the user. -/
inductive ConfirmResult
  | invalidToken
  | alreadyConfirmed
  | confirmed
deriving DecidableEq, Repr

/-- The `/confirm/<token>` handler.  On a valid token the code looks up
the user by the embedded email with `.first()` and immediately reads
`user.email_confirmed`; when no such user exists the lookup yields
`None` and the attribute access raises an `AttributeError`.  For an
unconfirmed user the flag is set and committed; for a confirmed user
nothing is written. -/
def confirm_email (db : DB) (t : Token) : Except PyError (ConfirmResult × DB) :=
  match loadsToken t 3600 with
  | none => .ok (.invalidToken, db)
  | some email =>
    match db.users.find? (fun u => u.email == email) with
    | none => .error (.attributeError "NoneType object has no attribute email_confirmed")
    | some u =>
      if u.email_confirmed then
        .ok (.alreadyConfirmed, db)
      else
        .ok (.confirmed,
          { db with
            users := db.users.map (fun x =>
              if x.id == u.id then { x with email_confirmed := true } else x) })

/-! Section: Cart view (`/cart`) -/

/-- The `cart.item` relationship: the `Item` row referenced by a cart
entry, or `none` when the foreign key dangles. -/
def resolveItem (db : DB) (c : CartEntry) : Option Item :=
  db.items.find? (fun it => it.id == c.itemid)

/-- The `/cart` handler: walks the user's cart rows in order, collects
the `(item, quantity)` pairs and accumulates
`price += cart.item.price * cart.quantity`; a dangling item reference
is surfaced as `none`. -/
def cart_view (db : DB) (uid : Nat) : Option (List (Item × Nat) × Int) :=
  (userCart db uid).foldl
    (fun acc c =>
      match acc with
      | none => none
      | some (pairs, price) =>
        match resolveItem db c with
        | none => none
        | some it => some (pairs ++ [(it, c.quantity)], price + it.price * (c.quantity : Int)))
    (some ([], 0))

/-! Section: Checkout (`/checkout`) -/

/-- The declared parameter list of the view function `orders`
(`def orders():` takes no arguments). -/
def orders_params : List String := []

/-- The `/checkout` POST handler: it evaluates
`orders(uid=current_user.id)`.  Python raises a `TypeError` as soon as
a keyword argument does not name a declared parameter of the callee;
only if `uid` were a parameter of `orders` would the handler reach
`db.session.add`/`commit` (that branch is unreachable and modelled as
leaving the store unchanged). -/
def checkout_post (db : DB) (uid : Nat) : Except PyError DB :=
  if "uid" ∈ orders_params then
    .ok db
  else
    .error (.typeError "orders() got an unexpected keyword argument uid")

/-- The `Order` rows persisted after a `/checkout` POST: an unhandled
exception aborts the request before anything is added to the session,
so the table is unchanged in that case. -/
def checkout_post_orders (db : DB) (uid : Nat) : List Order :=
  match checkout_post db uid with
  | .ok dbNew => dbNew.orders
  | .error _ => db.orders

/-! Section: Concrete inputs for witnesses and counterexamples -/

/-- Concrete users for the example store: user 1 is confirmed, user 2
is not. -/
def exUser1 : User :=
  { id := 1, name := "a", email := "a@b.c", password := "h", phone := "1",
    email_confirmed := true }

def exUser2 : User :=
  { id := 2, name := "b", email := "u@b.c", password := "h2", phone := "2",
    email_confirmed := false }

/-- A concrete store: user 1 has a single cart entry for item 10,
user 2 has an empty cart. -/
def exDB : DB :=
  { users := [exUser1, exUser2]
    items := [{ id := 10, name := "mug", price := 5, price_id := "p10" }]
    cart := [{ uid := 1, itemid := 10, quantity := 2 }]
    orders := []
    ordered_items := []
    next_order_id := 7 }

/-- A small catalog used as concrete input for the search theorems. -/
def exItems : List Item :=
  [{ id := 0, name := "ab", price := 3, price_id := "p0" },
   { id := 1, name := "Coffee Mug", price := 7, price_id := "p1" }]

/-- Concrete collaborators used by the witnesses: a hash recording
method, salt length and password, and a verifier accepting exactly
user 1's stored hash together with the password `"pw"`. -/
def exHash (hp : HashParams) (pw : String) : String :=
  hp.method ++ "$" ++ toString hp.salt_length ++ "$" ++ pw

def exCheck (stored given : String) : Bool :=
  stored == "h" && given == "pw"

/-- A junk `Item` used as the (never reached) default when reading an
optional lookup known to be populated. -/
def dItem : Item :=
  { id := 0, name := "", price := 0, price_id := "" }

/-! Section: C1/C2/C3: order placement -/

/-- C1 (counterexample): in `exDB`, user 1's cart is non-empty and an
exception injected while transferring the first cart entry leaves a
store that differs from the original one — the rollback does NOT undo
the creation of the new `Order` row, because the code committed it in a
separate, earlier transaction ("Commit to get the order ID").  The
claim that the entire transaction, order creation included, is rolled
back is therefore false. -/
theorem c1_place_order_not_atomic : ¬ rollsBackEverything exDB 1 0 0 := by
  unfold rollsBackEverything
  decide

/-- C1 (amended): if an exception occurs during the transfer of cart
entries to ordered items, the second transaction is rolled back — the
cart rows and the `Ordered_item` table are unchanged and the error is
reported — but the new `Order` row (status `"Pending"`), committed in a
separate earlier transaction, persists; order creation and line-item
transfer are two transactions, not one. -/
theorem c1_transfer_failure_rolls_back_transfer_only (db : DB) (uid now k : Nat)
    (hk : k < (userCart db uid).length) :
    (place_order db uid now (some k)).1 = .failure ∧
    (place_order db uid now (some k)).2.cart = db.cart ∧
    (place_order db uid now (some k)).2.ordered_items = db.ordered_items ∧
    (place_order db uid now (some k)).2.orders =
      db.orders ++ [{ id := db.next_order_id, uid := uid, date := now, status := "Pending" }] := by
  have hne : (userCart db uid).isEmpty = false := by
    cases h : userCart db uid with
    | nil => rw [h] at hk; simp at hk
    | cons a l => simp [List.isEmpty]
  simp only [place_order, hne, Bool.false_eq_true, if_false, hk, if_pos]
  simp

/-- Witness for C1's amended theorem at the concrete store `exDB`. -/
theorem c1_transfer_failure_rolls_back_transfer_only_witness :
    0 < (userCart exDB 1).length ∧
    ((place_order exDB 1 0 (some 0)).1 = .failure ∧
     (place_order exDB 1 0 (some 0)).2.cart = exDB.cart ∧
     (place_order exDB 1 0 (some 0)).2.ordered_items = exDB.ordered_items ∧
     (place_order exDB 1 0 (some 0)).2.orders =
       exDB.orders ++ [{ id := exDB.next_order_id, uid := 1, date := 0, status := "Pending" }]) :=
  ⟨by decide, c1_transfer_failure_rolls_back_transfer_only exDB 1 0 0 (by decide)⟩

/-- Line items created from a cart all carry the new order id, so
filtering the fresh `Ordered_item` rows by that id keeps them all. -/
theorem filter_transfer_map (N : Nat) (l : List CartEntry) :
    ((l.map (fun c =>
        ({ oid := N, itemid := c.itemid, quantity := c.quantity } : OrderedItem))).filter
      (fun oi => oi.oid == N)).map (fun oi => (oi.itemid, oi.quantity)) =
      l.map (fun c => (c.itemid, c.quantity)) := by
  induction l with
  | nil => rfl
  | cons a t ih => simp [ih]

/-- Deleting a user's cart rows leaves nothing of that user's cart. -/
theorem filter_uid_after_delete (uid : Nat) (l : List CartEntry) :
    (l.filter (fun c => !(c.uid == uid))).filter (fun c => c.uid == uid) = [] := by
  induction l with
  | nil => rfl
  | cons a t ih =>
    by_cases h : a.uid == uid <;> simp [List.filter_cons, h, ih]

/-- C2: for a user with a non-empty cart, a successful `place_order`
appends exactly one new `Order` row with status `"Pending"`, the
`Ordered_item` rows referencing that order are exactly the
`(item, quantity)` pairs of the user's cart rows at the moment of
placement, and afterwards the user's cart is empty. -/
theorem c2_place_order_success (db : DB) (uid now : Nat)
    (hne : userCart db uid ≠ [])
    (hfresh : ∀ oi ∈ db.ordered_items, oi.oid ≠ db.next_order_id) :
    (place_order db uid now none).1 = .success ∧
    (place_order db uid now none).2.orders =
      db.orders ++ [{ id := db.next_order_id, uid := uid, date := now, status := "Pending" }] ∧
    ((place_order db uid now none).2.ordered_items.filter
        (fun oi => oi.oid == db.next_order_id)).map (fun oi => (oi.itemid, oi.quantity)) =
      (userCart db uid).map (fun c => (c.itemid, c.quantity)) ∧
    userCart (place_order db uid now none).2 uid = [] := by
  have hne' : (userCart db uid).isEmpty = false := by
    cases h : userCart db uid with
    | nil => exact absurd h hne
    | cons a l => simp [List.isEmpty]
  have hpo : place_order db uid now none =
      (.success, commitTransfer
        { db with
          orders := db.orders ++ [{ id := db.next_order_id, uid := uid, date := now,
                                    status := "Pending" }],
          next_order_id := db.next_order_id + 1 }
        uid db.next_order_id (userCart db uid)) := by
    simp only [place_order, hne', Bool.false_eq_true, if_false]
  rw [hpo]
  refine ⟨rfl, rfl, ?_, ?_⟩
  · simp only [commitTransfer, List.filter_append]
    have h1 : db.ordered_items.filter (fun oi => oi.oid == db.next_order_id) = [] := by
      rw [List.filter_eq_nil_iff]
      intro oi hoi
      simpa using hfresh oi hoi
    rw [h1, List.nil_append, filter_transfer_map]
  · simpa [commitTransfer, userCart] using filter_uid_after_delete uid db.cart

/-- Witness for C2 at the concrete store `exDB`: user 1's cart holds
item 10 with quantity 2. -/
theorem c2_place_order_success_witness :
    (userCart exDB 1 ≠ [] ∧ ∀ oi ∈ exDB.ordered_items, oi.oid ≠ exDB.next_order_id) ∧
    ((place_order exDB 1 9 none).1 = .success ∧
     (place_order exDB 1 9 none).2.orders =
       exDB.orders ++ [{ id := exDB.next_order_id, uid := 1, date := 9, status := "Pending" }] ∧
     ((place_order exDB 1 9 none).2.ordered_items.filter
         (fun oi => oi.oid == exDB.next_order_id)).map (fun oi => (oi.itemid, oi.quantity)) =
       (userCart exDB 1).map (fun c => (c.itemid, c.quantity)) ∧
     userCart (place_order exDB 1 9 none).2 1 = []) :=
  ⟨by decide, c2_place_order_success exDB 1 9 (by decide) (by decide)⟩

/-- C3: for a user whose cart is empty, `place_order` fails with the
"cart is empty" flash and changes no state at all — in particular the
`Order`, `Ordered_item` and `Cart` tables are untouched. -/
theorem c3_place_order_empty_cart_no_change (db : DB) (uid now : Nat) (failAt : Option Nat)
    (he : userCart db uid = []) :
    place_order db uid now failAt = (.emptyCart, db) := by
  simp only [place_order, he, List.isEmpty_nil, if_pos]

/-- Witness for C3: user 2 has no cart entries in `exDB`. -/
theorem c3_place_order_empty_cart_no_change_witness :
    userCart exDB 2 = [] ∧ place_order exDB 2 5 none = (.emptyCart, exDB) :=
  ⟨by decide, c3_place_order_empty_cart_no_change exDB 2 5 none (by decide)⟩

/-! Section: C4: search -/

/-- Mapping a function over a string maps it over every suffix. -/
theorem tails_map (f : Char → Char) (l : List Char) :
    (l.map f).tails = l.tails.map (List.map f) := by
  induction l with
  | nil => rfl
  | cons a t ih => simp [List.tails_cons, ih]

/-- The result of `List.any` only depends on the values of the
predicate on the list. -/
theorem any_congr_on {α : Type} {l : List α} {f g : α → Bool} (h : ∀ x ∈ l, f x = g x) :
    l.any f = l.any g := by
  induction l with
  | nil => rfl
  | cons a t ih =>
    simp only [List.any_cons, h a (by simp), ih (fun x hx => h x (by simp [hx]))]

/-- Every string has the empty string among its suffixes. -/
theorem tails_any_isEmpty (s : List Char) : s.tails.any (fun t => t.isEmpty) = true := by
  induction s with
  | nil => rfl
  | cons d s' ih => simp [List.tails_cons, ih]

/-- A pattern starting with `%` matches a string iff the rest of the
pattern matches some suffix of it. -/
theorem likeMatch_pct_cons (p s : List Char) :
    likeMatch ('%' :: p) s = s.tails.any (fun t => likeMatch p t) := by
  simp [likeMatch]

/-- A wildcard-free pattern followed by a single trailing `%` matches a
string iff the pattern is a case-folded prefix of the string. -/
theorem likeMatch_literal_pct (q : List Char) (hw : ∀ c ∈ q, c ≠ '%' ∧ c ≠ '_') :
    ∀ s : List Char,
      likeMatch (q ++ ['%']) s = (q.map Char.toLower).isPrefixOf (s.map Char.toLower) := by
  induction q with
  | nil =>
    intro s
    rw [List.nil_append, List.map_nil, likeMatch_pct_cons]
    have h1 : s.tails.any (fun t => likeMatch [] t) = s.tails.any (fun t => t.isEmpty) :=
      any_congr_on (fun t _ => by simp [likeMatch])
    rw [h1, tails_any_isEmpty]
    simp [List.isPrefixOf]
  | cons c q' ih =>
    intro s
    have hc := hw c (by simp)
    cases s with
    | nil =>
      simp only [List.cons_append, likeMatch, if_neg hc.1, List.map_nil, List.map_cons]
      rfl
    | cons d s' =>
      simp only [List.cons_append, likeMatch, if_neg hc.1, if_neg hc.2, List.map_cons,
        List.isPrefixOf_cons₂, List.append_eq]
      rw [ih (fun x hx => hw x (by simp [hx])) s']

/-- For a query without SQL wildcards, the `LIKE "%query%"` test used by
the handler coincides with case-insensitive substring containment. -/
theorem likeMatch_eq_containsCI (query : String)
    (hw : ∀ c ∈ query.data, c ≠ '%' ∧ c ≠ '_') (name : String) :
    likeMatch ('%' :: (query.data ++ ['%'])) name.data = containsCI query name := by
  rw [likeMatch_pct_cons, containsCI]
  have h1 : name.data.tails.any (fun t => likeMatch (query.data ++ ['%']) t) =
      name.data.tails.any
        (fun t => (query.data.map Char.toLower).isPrefixOf (t.map Char.toLower)) :=
    any_congr_on (fun t _ => likeMatch_literal_pct query.data hw t)
  rw [h1, tails_map Char.toLower name.data, List.any_map]
  rfl

/-- C4 (counterexample): the handler passes the raw query into a SQL
`LIKE` pattern, so a query containing the `LIKE` wildcard `_` matches
names that do not contain it as a substring: searching `exItems` for
`"_"` returns both items even though neither name contains an
underscore.  The claim as stated is therefore false for queries that
contain `LIKE` wildcards. -/
theorem c4_search_wildcard_query_breaks_substring_semantics :
    ¬ searchIsSubstringSearch exItems "_" := by
  unfold searchIsSubstringSearch
  decide

/-- C4 (amended): for every non-empty query containing no SQL `LIKE`
wildcard character (`%` or `_`), `search` returns exactly the items
whose name contains the query as a case-insensitive substring; a query
containing wildcards is instead interpreted as a `LIKE` pattern. -/
theorem c4_search_without_wildcards_is_substring_search
    (items : List Item) (query : String)
    (hq : query ≠ "") (hw : ∀ c ∈ query.data, c ≠ '%' ∧ c ≠ '_') :
    search items query = items.filter (fun it => containsCI query it.name) := by
  unfold search
  exact List.filter_congr (fun it _ => likeMatch_eq_containsCI query hw it.name)

/-- Witness for C4's amended theorem: searching `exItems` for `"mUg"`
returns exactly the `"Coffee Mug"` item. -/
theorem c4_search_without_wildcards_is_substring_search_witness :
    ("mUg" ≠ "" ∧ ∀ c ∈ "mUg".data, c ≠ '%' ∧ c ≠ '_') ∧
    search exItems "mUg" = exItems.filter (fun it => containsCI "mUg" it.name) :=
  ⟨by decide,
   c4_search_without_wildcards_is_substring_search exItems "mUg" (by decide) (by decide)⟩

/-! Section: C5/C6: registration and login -/

/-- C5: registering with an email already present in the `User` table
fails with the conflict flash and adds no row; registering with a fresh
email appends exactly one `User` row whose credential is the salted
pbkdf2:sha256 hash of the password and whose confirmation flag is
false. -/
theorem c5_register_conflict_and_fresh (hashPw : HashParams → String → String)
    (db : DB) (name email password phone : String) (newId : Nat) :
    ((∃ u ∈ db.users, u.email = email) →
      register hashPw db name email password phone newId = (.conflict email, db)) ∧
    ((∀ u ∈ db.users, u.email ≠ email) →
      register hashPw db name email password phone newId =
        (.success,
         { db with
           users := db.users ++
             [{ id := newId, name := name, email := email,
                password := hashPw { method := "pbkdf2:sha256", salt_length := 8 } password,
                phone := phone, email_confirmed := false }] })) := by
  constructor
  · rintro ⟨u, hu, he⟩
    have hsome : (db.users.find? (fun v => v.email == email)).isSome := by
      rw [List.find?_isSome]
      exact ⟨u, hu, by simp [he]⟩
    obtain ⟨v, hv⟩ := Option.isSome_iff_exists.mp hsome
    have hve : v.email = email := by simpa using List.find?_some hv
    simp [register, hv, hve]
  · intro h
    have hnone : db.users.find? (fun v => v.email == email) = none := by
      rw [List.find?_eq_none]
      intro x hx
      simp [h x hx]
    simp [register, hnone]

/-- Witness for C5: a second registration for `"a@b.c"` conflicts and
leaves the store unchanged; a registration for the fresh `"c@b.c"`
appends the hashed, unconfirmed row. -/
theorem c5_register_conflict_and_fresh_witness :
    register exHash exDB "n2" "a@b.c" "pw" "9" 3 = (.conflict "a@b.c", exDB) ∧
    register exHash exDB "n2" "c@b.c" "pw" "9" 3 =
      (.success,
       { exDB with
         users := exDB.users ++
           [{ id := 3, name := "n2", email := "c@b.c",
              password := exHash { method := "pbkdf2:sha256", salt_length := 8 } "pw",
              phone := "9", email_confirmed := false }] }) :=
  ⟨(c5_register_conflict_and_fresh exHash exDB "n2" "a@b.c" "pw" "9" 3).1 (by decide),
   (c5_register_conflict_and_fresh exHash exDB "n2" "c@b.c" "pw" "9" 3).2 (by decide)⟩

/-- C6: for an unauthenticated session, login with a stored user's
email succeeds exactly when the hash comparison succeeds, and then
establishes the session for that user; a failing comparison or an
unknown email fails and leaves the (absent) session untouched. -/
theorem c6_login_spec (checkPw : String → String → Bool) (db : DB) (sess : Session)
    (email password : String) (hsess : sess.current = none) :
    (db.users.find? (fun u => u.email == email) = none →
      login checkPw db sess email password = (.unknownEmail email, sess)) ∧
    (∀ u, db.users.find? (fun u => u.email == email) = some u →
      (checkPw u.password password = true →
        login checkPw db sess email password = (.success u.id, { current := some u.id })) ∧
      (checkPw u.password password = false →
        login checkPw db sess email password = (.wrongPassword, sess))) := by
  have h0 : sess.current.isSome = false := by rw [hsess]; rfl
  constructor
  · intro hn
    simp [login, h0, hn]
  · intro u hu
    constructor
    · intro hc
      simp [login, h0, hu, hc]
    · intro hc
      simp [login, h0, hu, hc]

/-- Witness for C6: against `exDB`, the stored hash of user 1 verifies
only for the password `"pw"`. -/
theorem c6_login_spec_witness :
    login exCheck exDB { current := none } "a@b.c" "pw" =
      (.success 1, { current := some 1 }) ∧
    login exCheck exDB { current := none } "a@b.c" "bad" =
      (.wrongPassword, { current := none }) ∧
    login exCheck exDB { current := none } "z@b.c" "pw" =
      (.unknownEmail "z@b.c", { current := none }) :=
  ⟨((c6_login_spec exCheck exDB { current := none } "a@b.c" "pw" rfl).2
      exUser1 (by decide)).1 (by decide),
   ((c6_login_spec exCheck exDB { current := none } "a@b.c" "bad" rfl).2
      exUser1 (by decide)).2 (by decide),
   (c6_login_spec exCheck exDB { current := none } "z@b.c" "pw" rfl).1 (by decide)⟩

/-! Section: C9: checkout -/

/-- C9: every POST to `/checkout` raises an unhandled `TypeError` —
the handler calls the zero-parameter view function `orders` with the
keyword argument `uid` — and consequently persists no `Order` row. -/
theorem c9_checkout_post_always_raises (db : DB) (uid : Nat) :
    checkout_post db uid =
      .error (.typeError "orders() got an unexpected keyword argument uid") ∧
    checkout_post_orders db uid = db.orders := by
  constructor
  · simp [checkout_post, orders_params]
  · simp [checkout_post_orders, checkout_post, orders_params]

/-! Section: C7/C10: email confirmation -/

/-- The result of `List.find?` only depends on the values of the
predicate on the list. -/
theorem find?_congr_on {α : Type} {l : List α} {f g : α → Bool} (h : ∀ x ∈ l, f x = g x) :
    l.find? f = l.find? g := by
  induction l with
  | nil => rfl
  | cons a t ih =>
    rw [List.find?_cons, List.find?_cons, h a (by simp)]
    cases hga : g a
    · exact ih (fun x hx => h x (by simp [hx]))
    · rfl

/-- The confirmation update touches only the `email_confirmed` field,
never the email. -/
theorem confirmFlip_email (u x : User) :
    ((if x.id == u.id then { x with email_confirmed := true } else x) : User).email
      = x.email := by
  by_cases h : x.id == u.id <;> simp [h]

/-- C7: a token whose signature fails to verify or that is older than
the 3600-second window is rejected with no state change; with a valid
token for a stored user, an already-confirmed account is a no-op
success (flag stays true, nothing written), and an unconfirmed account
gets its flag flipped to true, with every other table untouched. -/
theorem c7_confirm_email_spec (db : DB) (t : Token) :
    ((t.validSig = false ∨ 3600 < t.age) → confirm_email db t = .ok (.invalidToken, db)) ∧
    (∀ u, t.validSig = true → t.age ≤ 3600 →
      db.users.find? (fun x => x.email == t.email) = some u →
      ((u.email_confirmed = true → confirm_email db t = .ok (.alreadyConfirmed, db)) ∧
       (u.email_confirmed = false →
         ∃ dbNew, confirm_email db t = .ok (.confirmed, dbNew) ∧
           dbNew.users.find? (fun x => x.email == t.email) =
             some { u with email_confirmed := true } ∧
           dbNew.items = db.items ∧ dbNew.cart = db.cart ∧
           dbNew.orders = db.orders ∧ dbNew.ordered_items = db.ordered_items))) := by
  constructor
  · intro h
    have hcond : ¬ (t.validSig = true ∧ t.age ≤ 3600) := by
      rcases h with h | h
      · simp [h]
      · intro hc
        omega
    simp [confirm_email, loadsToken, hcond]
  · intro u hsig hage hu
    have hld : loadsToken t 3600 = some t.email := by
      simp [loadsToken, hsig, hage]
    constructor
    · intro hconf
      simp [confirm_email, hld, hu, hconf]
    · intro hconf
      refine ⟨{ db with users := db.users.map (fun x =>
          if x.id == u.id then { x with email_confirmed := true } else x) },
        ?_, ?_, rfl, rfl, rfl, rfl⟩
      · simp [confirm_email, hld, hu, hconf]
      · rw [List.find?_map]
        have hcg : db.users.find?
            ((fun x => x.email == t.email) ∘ (fun x =>
              if x.id == u.id then { x with email_confirmed := true } else x)) =
            db.users.find? (fun x => x.email == t.email) :=
          find?_congr_on (fun x _ => by
            simp only [Function.comp]
            rw [confirmFlip_email u x])
        rw [hcg, hu]
        simp

/-- Witness for C7 against `exDB`: an expired token is rejected, a
valid token for the confirmed user 1 is an idempotent no-op, and a
valid token for the unconfirmed user 2 flips the flag. -/
theorem c7_confirm_email_spec_witness :
    confirm_email exDB { email := "a@b.c", age := 9000, validSig := true } =
      .ok (.invalidToken, exDB) ∧
    confirm_email exDB { email := "a@b.c", age := 100, validSig := true } =
      .ok (.alreadyConfirmed, exDB) ∧
    (∃ dbNew,
      confirm_email exDB { email := "u@b.c", age := 100, validSig := true } =
        .ok (.confirmed, dbNew) ∧
      dbNew.users.find? (fun x => x.email == "u@b.c") =
        some { exUser2 with email_confirmed := true } ∧
      dbNew.items = exDB.items ∧ dbNew.cart = exDB.cart ∧
      dbNew.orders = exDB.orders ∧ dbNew.ordered_items = exDB.ordered_items) :=
  ⟨(c7_confirm_email_spec exDB { email := "a@b.c", age := 9000, validSig := true }).1
      (Or.inr (by decide)),
   ((c7_confirm_email_spec exDB { email := "a@b.c", age := 100, validSig := true }).2
      exUser1 rfl (by decide) (by decide)).1 (by decide),
   ((c7_confirm_email_spec exDB { email := "u@b.c", age := 100, validSig := true }).2
      exUser2 rfl (by decide) (by decide)).2 (by decide)⟩

/-- C10: a token that decodes within the window but whose embedded
email matches no `User` row makes `confirm_email` crash with an
unhandled `AttributeError` (the code dereferences the `None` returned
by `.first()`), instead of reporting a not-found condition. -/
theorem c10_confirm_email_unknown_user_crashes (db : DB) (t : Token)
    (hsig : t.validSig = true) (hage : t.age ≤ 3600)
    (hnone : db.users.find? (fun u => u.email == t.email) = none) :
    confirm_email db t =
      .error (.attributeError "NoneType object has no attribute email_confirmed") := by
  have hld : loadsToken t 3600 = some t.email := by
    simp [loadsToken, hsig, hage]
  simp [confirm_email, hld, hnone]

/-- Witness for C10: no user of `exDB` has the email `"ghost@b.c"`. -/
theorem c10_confirm_email_unknown_user_crashes_witness :
    exDB.users.find? (fun u => u.email == "ghost@b.c") = none ∧
    confirm_email exDB { email := "ghost@b.c", age := 10, validSig := true } =
      .error (.attributeError "NoneType object has no attribute email_confirmed") :=
  ⟨by decide,
   c10_confirm_email_unknown_user_crashes exDB
     { email := "ghost@b.c", age := 10, validSig := true } rfl (by decide) (by decide)⟩

/-! Section: C8: cart totals -/

/-- Invariant of the `/cart` accumulation loop: starting from any
already-collected pairs and running total, folding over cart rows whose
items all resolve appends their `(item, quantity)` pairs and adds
`Σ price × quantity` to the total. -/
theorem cart_fold_spec (db : DB) (l : List CartEntry)
    (h : ∀ c ∈ l, (resolveItem db c).isSome) :
    ∀ pairs price,
      l.foldl
        (fun acc c =>
          match acc with
          | none => none
          | some (pairs, price) =>
            match resolveItem db c with
            | none => none
            | some it =>
              some (pairs ++ [(it, c.quantity)], price + it.price * (c.quantity : Int)))
        (some (pairs, price)) =
      some (pairs ++ l.map (fun c => ((resolveItem db c).getD dItem, c.quantity)),
            price + (l.map (fun c =>
              ((resolveItem db c).getD dItem).price * (c.quantity : Int))).sum) := by
  induction l with
  | nil =>
    intro pairs price
    simp
  | cons c tl ih =>
    intro pairs price
    obtain ⟨it, hit⟩ := Option.isSome_iff_exists.mp (h c (by simp))
    have htl := ih (fun x hx => h x (by simp [hx]))
    simp only [List.foldl_cons, hit, List.map_cons, List.sum_cons]
    rw [htl]
    simp [hit, List.append_assoc, add_assoc]

/-- C8: when every cart row's item resolves, the `/cart` view returns
exactly the `(item, quantity)` pairs of the user's cart rows, in order,
and a total equal to `Σ item.price × quantity` over those rows. -/
theorem c8_cart_view_pairs_and_total (db : DB) (uid : Nat)
    (h : ∀ c ∈ userCart db uid, (resolveItem db c).isSome) :
    cart_view db uid =
      some ((userCart db uid).map (fun c => ((resolveItem db c).getD dItem, c.quantity)),
            ((userCart db uid).map (fun c =>
              ((resolveItem db c).getD dItem).price * (c.quantity : Int))).sum) := by
  have hfold := cart_fold_spec db (userCart db uid) h [] 0
  simpa [cart_view] using hfold

/-- Witness for C8: user 1's cart in `exDB` holds item 10 (price 5)
with quantity 2, so the view returns that single pair and total 10. -/
theorem c8_cart_view_pairs_and_total_witness :
    (∀ c ∈ userCart exDB 1, (resolveItem exDB c).isSome) ∧
    cart_view exDB 1 =
      some ((userCart exDB 1).map (fun c => ((resolveItem exDB c).getD dItem, c.quantity)),
            ((userCart exDB 1).map (fun c =>
              ((resolveItem exDB c).getD dItem).price * (c.quantity : Int))).sum) :=
  ⟨by decide, c8_cart_view_pairs_and_total exDB 1 (by decide)⟩

end Shop
